import Mathlib

/-
Verification development for the farmer_helpdesk repository.

Shallow embedding of the two core flows:
  * the plant-disease analysis API route (src/app/api/plant-disease/route.ts),
  * the chat submission flow of the AI call-agent modal (submitMessage).

Machine-level JavaScript values exchanged as JSON are modelled by the `Json`
inductive below.  External effects (the three upstream fetch calls, the
JSON.parse library function, the clock) are modelled as an explicit
environment, so that each route execution becomes a pure function of the
request and the environment.  Every `throw` site of the source is translated
to an `Except.error` that is caught exactly where the source catches it.
-/

namespace FarmerHelpdesk

/-- JSON/JavaScript values (numbers as rationals; `null` doubles for the
JavaScript `undefined` only where noted — absent fields are `Option.none`). -/
inductive Json where
  | null
  | bool (b : Bool)
  | num (n : Rat)
  | str (s : String)
  | arr (elems : List Json)
  | obj (fields : List (String × Json))
deriving Repr

/-- First-match association-list lookup, the access `o.k` on a JS object.
(Objects produced by JSON.parse have unique keys, so first- vs last-match is
immaterial.) -/
def lookupField : List (String × Json) → String → Option Json
  | [], _ => none
  | (k, v) :: rest, key => if k = key then some v else lookupField rest key

/-- Property access `j.key`: `none` models JavaScript `undefined`
(access on a primitive yields `undefined`; access on `null` throws, which the
call sites below handle explicitly before using `jget`). -/
def jget : Json → String → Option Json
  | .obj fs, key => lookupField fs key
  | _, _ => none

/-- JavaScript truthiness of a value. -/
def truthy : Json → Bool
  | .null => false
  | .bool b => b
  | .num n => if n = 0 then false else true
  | .str s => if s = "" then false else true
  | .arr _ => true
  | .obj _ => true

/-- Truthiness of a possibly-`undefined` value. -/
def truthyOpt : Option Json → Bool
  | none => false
  | some j => truthy j

/-- `Array.isArray` on a possibly-`undefined` value. -/
def isArr : Option Json → Bool
  | some (.arr _) => true
  | _ => false

/-- Is the value a JSON number (for the `confidence` invariant). -/
def isNum : Option Json → Bool
  | some (.num _) => true
  | _ => false

/-- The character `{` (written via its code point). -/
def lbrace : Char := Char.ofNat 123

/-- The character `}` (written via its code point). -/
def rbrace : Char := Char.ofNat 125

/-- Index of the last occurrence of `c` in `cs`. -/
def lastIdxOf (cs : List Char) (c : Char) : Option Nat :=
  match cs.reverse.findIdx? (fun x => x == c) with
  | some k => some (cs.length - 1 - k)
  | none => none

/-- The source line `analysisContent.match(/\x7b[\s\S]*\x7d/)`: the greedy
regex matches from the first opening brace to the last closing brace of the
text, provided the latter comes after the former; otherwise there is no match. -/
def extractSpan (s : String) : Option String :=
  let cs := s.data
  match cs.findIdx? (fun x => x == lbrace), lastIdxOf cs rbrace with
  | some i, some j =>
    if i < j then some (String.mk ((cs.drop i).take (j - i + 1))) else none
  | _, _ => none

/-- Outcome of one upstream `fetch` as observed by the route: the fetch
promise may reject (`throws`), or resolve to a response with an `ok` flag
whose `.json()` body either throws (`Except.error`) or yields a value. -/
inductive FetchOutcome where
  | throws
  | success (ok : Bool) (body : Except Unit Json)

/-- The remote calls a route execution can issue, in order of the source:
the primary vision completion, the secondary treatment completion, and the
text-only fallback completion. -/
inductive Call where
  | vision
  | treatment
  | fallback
deriving DecidableEq, Repr

/-- An HTTP response as produced by `NextResponse.json` (default status 200). -/
structure HttpResponse where
  status : Nat
  body : Json

/-- The external world of one request: the outcome of each of the up to three
upstream fetches, the `JSON.parse` library function (as a partial oracle:
`none` means the parse throws), the timestamp string, and the message text of
whatever error reaches the outer catch. -/
structure Env where
  visionFetch : FetchOutcome
  treatmentFetch : FetchOutcome
  fallbackFetch : FetchOutcome
  parse : String → Option Json
  now : String
  errDetails : String

/-- The JavaScript element access `v[0]`: the numeric index is coerced to the
property key "0", so it reads the head of an array, the "0" key of a plain
object, and the first character of a string; on other primitives (and on
null, which the optional chain below never passes here) it is `undefined`. -/
def idx0 : Json → Option Json
  | .arr elems => elems.head?
  | .obj fs => lookupField fs "0"
  | .str s =>
    match s.data with
    | [] => none
    | c :: _ => some (.str (String.mk [c]))
  | _ => none

/-- The chain `data.choices?.[0]?.message?.content` (route lines 76, 134 and
193).  The first access `.choices` is NOT optional — the `?.` sits after it —
so on a JSON-null `data` it throws a `TypeError` (`Except.error`), which the
catch surrounding each call site handles; from `choices` on, the `?.` links
short-circuit `null`/`undefined` to `undefined` without throwing. -/
def contentPath : Json → Except Unit (Option Json)
  | .null => .error ()
  | data =>
    .ok (match jget data "choices" with
      | none => none
      | some choices =>
        match idx0 choices with
        | none => none
        | some first =>
          match jget first "message" with
          | none => none
          | some msg => jget msg "content")

/-- Lines 82–92 of the route: `JSON.parse(analysisContent)`, and on failure a
greedy brace-span extraction followed by a second `JSON.parse`; both failing
is a thrown error.  The non-string branches record what JavaScript does when
the reply content is not a string: `JSON.parse` of the coerced primitive
returns the primitive back, while calling `.match` on an array/object in the
catch branch throws a `TypeError` — either way the flow below behaves
identically to the source. -/
def parseStage (parse : String → Option Json) : Json → Except Unit Json
  | .str s =>
    match parse s with
    | some j => .ok j
    | none =>
      match extractSpan s with
      | some sub =>
        match parse sub with
        | some j => .ok j
        | none => .error ()
      | none => .error ()
  | .num n => .ok (.num n)
  | .bool b => .ok (.bool b)
  | .null => .ok .null
  | .arr _ => .error ()
  | .obj _ => .error ()

/-- Remove every binding of `key` (JS objects carry each key once, so this is
exactly the spread-override of that key). -/
def removeField : List (String × Json) → String → List (String × Json)
  | [], _ => []
  | (k, v) :: rest, key =>
    if k = key then removeField rest key else (k, v) :: removeField rest key

/-- The merge `{...analysis, aiGeneratedTreatment, analysisTimestamp, language}`
of lines 136–141.  Validation guarantees `analysis` is an object; the
defensive non-object branch keeps the function total. -/
def mergeAnalysis (analysis : Json) (ai : Json) (now : String) (language : Json) : Json :=
  match analysis with
  | .obj fs =>
    .obj (removeField (removeField (removeField fs "aiGeneratedTreatment")
            "analysisTimestamp") "language"
      ++ [("aiGeneratedTreatment", ai), ("analysisTimestamp", .str now),
          ("language", language)])
  | _ =>
    .obj [("aiGeneratedTreatment", ai), ("analysisTimestamp", .str now),
          ("language", language)]

/-- The guidance-tier response of lines 195–206 (`fallbackMode: true`,
confidence 0.6, `language` included, `guidanceContent || <default prompt>`). -/
def tier2Response (guidanceContent : Option Json) (now : String) (language : Json) :
    HttpResponse :=
  { status := 200
    body := .obj
      [("disease", .str "Analysis Service - Use Guidance"),
       ("confidence", .num 0.6),
       ("description", .str "Direct image analysis is temporarily unavailable. Follow the guidance below to diagnose your plant."),
       ("symptoms", .arr [.str "Image upload successful", .str "Please use the recommendations below"]),
       ("treatment", .arr [.str "Upload a clear, well-lit image of affected leaf", .str "Include both affected and healthy parts", .str "Ensure good camera focus"]),
       ("prevention", .arr [.str "Contact local Agricultural Department for precise diagnosis"]),
       ("aiGeneratedTreatment",
         if truthyOpt guidanceContent then guidanceContent.getD .null
         else .str "Please try uploading your image again or contact your local Krishi Vigyan Kendra (KVK) for expert assistance."),
       ("fallbackMode", .bool true),
       ("analysisTimestamp", .str now),
       ("language", language)] }

/-- The hardcoded service-unavailable response of lines 209–219
(`fallbackMode: true`, confidence 0, and no `language` field). -/
def tier3Response (now : String) : HttpResponse :=
  { status := 200
    body := .obj
      [("disease", .str "Service Temporarily Unavailable"),
       ("confidence", .num 0),
       ("description", .str "The AI plant disease analysis service is currently unavailable."),
       ("symptoms", .arr [.str "Service error - please try again later"]),
       ("treatment", .arr [.str "Try uploading again in a few moments", .str "Contact your local Agricultural Department"]),
       ("prevention", .arr []),
       ("aiGeneratedTreatment", .str "For immediate assistance, please contact your nearest Krishi Vigyan Kendra (KVK) or Agricultural Extension Office in your district."),
       ("fallbackMode", .bool true),
       ("analysisTimestamp", .str now)] }

/-- `getFallbackAnalysis` (route lines 162–221): one text-only fetch whose
`ok` flag is never inspected; a rejected fetch, a throwing `.json()`, or a
JSON-null body (whose non-optional `.choices` access throws) is caught and
answered with the hardcoded tier-3 response. -/
def getFallbackAnalysis (env : Env) (language : Json) : HttpResponse × List Call :=
  match env.fallbackFetch with
  | .throws => (tier3Response env.now, [Call.fallback])
  | .success _ fbody =>
    match fbody with
    | .error _ => (tier3Response env.now, [Call.fallback])
    | .ok fallbackData =>
      match contentPath fallbackData with
      | .error _ => (tier3Response env.now, [Call.fallback])
      | .ok guidanceContent =>
        (tier2Response guidanceContent env.now language, [Call.fallback])

/-- The inner `try` block of the route (lines 18–143): the vision fetch, the
parse and validation stages, the treatment fetch and the merge.
`Except.error` means control transfers to `getFallbackAnalysis` — this covers
both the explicit `return getFallbackAnalysis(...)` on a non-ok vision reply
whose error message mentions image/vision, and every `throw` caught by the
`groqError` handler (a non-ok reply not mentioning image/vision throws at
line 72 and is caught at line 144, landing in the same fallback — so every
non-ok vision reply transfers to the fallback tier). -/
def runVision (env : Env) (language : Json) : Except Unit HttpResponse × List Call :=
  match env.visionFetch with
  | .throws => (.error (), [Call.vision])
  | .success ok body =>
    if ok = false then
      (.error (), [Call.vision])
    else
      match body with
      | .error _ => (.error (), [Call.vision])
      | .ok data =>
        match contentPath data with
        | .error _ => (.error (), [Call.vision])
        | .ok analysisContent =>
          if truthyOpt analysisContent = false then
            (.error (), [Call.vision])
          else
            match parseStage env.parse (analysisContent.getD .null) with
            | .error _ => (.error (), [Call.vision])
            | .ok analysis =>
              if (truthyOpt (jget analysis "disease")
                  && isArr (jget analysis "symptoms")) = false then
                (.error (), [Call.vision])
              else
                match env.treatmentFetch with
                | .throws => (.error (), [Call.vision, Call.treatment])
                | .success _ tbody =>
                  match tbody with
                  | .error _ => (.error (), [Call.vision, Call.treatment])
                  | .ok tdata =>
                    match contentPath tdata with
                    | .error _ => (.error (), [Call.vision, Call.treatment])
                    | .ok treatmentContent =>
                      let ai := if truthyOpt treatmentContent then
                          treatmentContent.getD .null
                        else .str ""
                      (.ok { status := 200,
                             body := mergeAnalysis analysis ai env.now language },
                       [Call.vision, Call.treatment])

/-- Truthiness of `process.env.GROQ_API_KEY` (a string or `undefined`). -/
def truthyKey : Option String → Bool
  | none => false
  | some s => if s = "" then false else true

/-- The 500 response produced by the outer catch (lines 148–158). -/
def outerCatchResponse (env : Env) : HttpResponse :=
  { status := 500
    body := .obj [("error", .str "Analysis service temporarily unavailable"),
                  ("details", .str env.errDetails)] }

/-- The whole POST handler of src/app/api/plant-disease/route.ts, as a pure
function of the parsed request body (`Except.error` = `request.json()`
throws), the credential, and the environment.  Returns the HTTP response and
the list of upstream calls issued.  A body equal to JSON `null` is parsed
successfully but the destructuring `const { imageBase64, language = 'en' }`
then throws a `TypeError`, which the outer catch converts to the generic 500. -/
def POST (body : Except Unit Json) (groqApiKey : Option String) (env : Env) :
    HttpResponse × List Call :=
  match body with
  | .error _ => (outerCatchResponse env, [])
  | .ok Json.null => (outerCatchResponse env, [])
  | .ok b =>
    let imageBase64 := jget b "imageBase64"
    let language := (jget b "language").getD (.str "en")
    if truthyOpt imageBase64 = false then
      ({ status := 400, body := .obj [("error", .str "No image provided")] }, [])
    else if truthyKey groqApiKey = false then
      ({ status := 500, body := .obj [("error", .str "Groq API key not configured")] }, [])
    else
      match runVision env language with
      | (.ok r, calls) => (r, calls)
      | (.error _, calls) =>
        let fb := getFallbackAnalysis env language
        (fb.1, calls ++ fb.2)

/-- Message roles of the chat transcript. -/
inductive Role where
  | user
  | assistant
deriving DecidableEq, Repr

/-- A transcript turn (the `Message` interface of the modal).  `content` is a
runtime JavaScript value (`data.response` is assigned unchecked); `timestamp`
abstracts `new Date()` as the submission instant. -/
structure Message where
  id : String
  role : Role
  content : Json
  timestamp : Nat

/-- The session state touched by `submitMessage`: the transcript, the input
box, and the single-flight busy flag. -/
structure ChatState where
  messages : List Message
  input : String
  isLoading : Bool

/-- Drop leading whitespace characters of a character list. -/
def dropLeadingWs : List Char → List Char
  | [] => []
  | c :: rest => if c.isWhitespace then dropLeadingWs rest else c :: rest

/-- JavaScript `String.prototype.trim`: strip leading and trailing
whitespace. -/
def jsTrim (s : String) : String :=
  String.mk ((dropLeadingWs ((dropLeadingWs s.data).reverse)).reverse)

/-- Outcome of the `/api/groq-query` fetch as observed by `submitMessage`. -/
inductive ChatFetch where
  | throws
  | success (ok : Bool) (body : Except Unit Json)

/-- `true` exactly when the fetch rejects (transport failure) or resolves
with a non-2xx response (`!response.ok`). -/
def chatFailed : ChatFetch → Bool
  | .throws => true
  | .success ok _ => !ok

/-- The synthesized apology turn appended by the catch block of
`submitMessage`. -/
def errorTurn (now : Nat) : Message :=
  { id := toString (now + 2)
    role := .assistant
    content := .str "Sorry, there was an error. Please try again."
    timestamp := now }

/-- `submitMessage` of the AI call-agent modal (src/unnamed/part_000 lines
358–415), with `now` abstracting `Date.now()`.  Returns the new session state
and whether a network request was issued.  A body of JSON `null` is noted
separately: `data.response` on `null` throws a `TypeError`, which the catch
block converts to the apology turn. -/
def submitMessage (st : ChatState) (messageText : String) (f : ChatFetch)
    (now : Nat) : ChatState × Bool :=
  if jsTrim messageText = "" ∨ st.isLoading = true then (st, false)
  else
    let userMessage : Message :=
      { id := toString now, role := .user, content := .str messageText,
        timestamp := now }
    let assistantMessage : Message :=
      match f with
      | .throws => errorTurn now
      | .success ok body =>
        if ok = false then errorTurn now
        else
          match body with
          | .error _ => errorTurn now
          | .ok Json.null => errorTurn now
          | .ok data =>
            { id := toString (now + 1)
              role := .assistant
              content := if truthyOpt (jget data "response") then
                  (jget data "response").getD .null
                else .str "No response from AI"
              timestamp := now }
    ({ messages := st.messages ++ [userMessage, assistantMessage]
       input := ""
       isLoading := false }, true)

/-! ### Lookup and merge lemmas -/

theorem lookupField_append (l1 l2 : List (String × Json)) (key : String) :
    lookupField (l1 ++ l2) key =
      match lookupField l1 key with
      | some v => some v
      | none => lookupField l2 key := by
  induction l1 with
  | nil => rfl
  | cons p rest ih =>
    rcases p with ⟨k, v⟩
    by_cases h : k = key
    · simp [lookupField, h]
    · simp [lookupField, h, ih]

theorem lookupField_removeField_ne (fs : List (String × Json)) (key k : String)
    (h : ¬ key = k) :
    lookupField (removeField fs k) key = lookupField fs key := by
  induction fs with
  | nil => rfl
  | cons p rest ih =>
    rcases p with ⟨k0, v⟩
    unfold removeField
    by_cases hk : k0 = k
    · rw [if_pos hk, ih]
      have hne : ¬ k0 = key := fun hc => h (hc ▸ hk)
      conv_rhs => unfold lookupField
      rw [if_neg hne]
    · rw [if_neg hk]
      unfold lookupField
      by_cases hkey : k0 = key
      · rw [if_pos hkey, if_pos hkey]
      · rw [if_neg hkey, if_neg hkey, ih]

theorem lookupField_removeField_self (fs : List (String × Json)) (k : String) :
    lookupField (removeField fs k) k = none := by
  induction fs with
  | nil => rfl
  | cons p rest ih =>
    rcases p with ⟨k0, v⟩
    by_cases hk : k0 = k
    · simp [removeField, hk, ih]
    · simp [removeField, hk, lookupField, ih]

/-- Keys other than the three merged-in ones read through `mergeAnalysis` to
the primary analysis object. -/
theorem jget_mergeAnalysis_ne (fs : List (String × Json)) (ai : Json)
    (now : String) (language : Json) (key : String)
    (h1 : ¬ key = "aiGeneratedTreatment") (h2 : ¬ key = "analysisTimestamp")
    (h3 : ¬ key = "language") :
    jget (mergeAnalysis (Json.obj fs) ai now language) key = lookupField fs key := by
  simp only [mergeAnalysis, jget]
  rw [lookupField_append]
  rw [lookupField_removeField_ne _ _ _ h3, lookupField_removeField_ne _ _ _ h2,
      lookupField_removeField_ne _ _ _ h1]
  cases hl : lookupField fs key with
  | some v => rfl
  | none =>
    simp only [lookupField]
    rw [if_neg (fun hc => h1 hc.symm), if_neg (fun hc => h2 hc.symm),
        if_neg (fun hc => h3 hc.symm)]

/-- The merged object always carries the `aiGeneratedTreatment` value chosen
by the route. -/
theorem jget_mergeAnalysis_ai (fs : List (String × Json)) (ai : Json)
    (now : String) (language : Json) :
    jget (mergeAnalysis (Json.obj fs) ai now language) "aiGeneratedTreatment" =
      some ai := by
  simp only [mergeAnalysis, jget]
  rw [lookupField_append]
  rw [lookupField_removeField_ne _ _ "language" (by decide),
      lookupField_removeField_ne _ _ "analysisTimestamp" (by decide),
      lookupField_removeField_self]
  simp [lookupField]

/-- A key whose lookup is truthy forces the value to be an object. -/
theorem truthy_jget_obj (j : Json) (key : String)
    (h : truthyOpt (jget j key) = true) : ∃ fs, j = Json.obj fs := by
  cases j with
  | obj fs => exact ⟨fs, rfl⟩
  | null => simp [jget, truthyOpt] at h
  | bool b => simp [jget, truthyOpt] at h
  | num n => simp [jget, truthyOpt] at h
  | str s => simp [jget, truthyOpt] at h
  | arr es => simp [jget, truthyOpt] at h

/-! ### Shape lemmas for the fallback tiers and the success path -/

/-- Both fallback tiers answer 200 with a truthy `disease`, an array
`symptoms`, a numeric `confidence`, `fallbackMode: true`, and exactly one
remote call. -/
theorem getFallbackAnalysis_shape (env : Env) (language : Json) :
    (getFallbackAnalysis env language).1.status = 200 ∧
    truthyOpt (jget (getFallbackAnalysis env language).1.body "disease") = true ∧
    isArr (jget (getFallbackAnalysis env language).1.body "symptoms") = true ∧
    jget (getFallbackAnalysis env language).1.body "fallbackMode" =
      some (.bool true) ∧
    isNum (jget (getFallbackAnalysis env language).1.body "confidence") = true ∧
    (getFallbackAnalysis env language).2 = [Call.fallback] := by
  rcases env with ⟨vf, tf, ff, parse, now, det⟩
  cases ff with
  | throws =>
    refine ⟨rfl, ?_, ?_, ?_, ?_, rfl⟩ <;> rfl
  | success ok fbody =>
    cases fbody with
    | error e => refine ⟨rfl, ?_, ?_, ?_, ?_, rfl⟩ <;> rfl
    | ok fallbackData =>
      cases hcp : contentPath fallbackData with
      | error e =>
        refine ⟨?_, ?_, ?_, ?_, ?_, ?_⟩ <;>
          simp [getFallbackAnalysis, hcp, tier3Response, jget, lookupField,
            truthyOpt, truthy, isArr, isNum]
      | ok guidanceContent =>
        refine ⟨?_, ?_, ?_, ?_, ?_, ?_⟩ <;>
          simp [getFallbackAnalysis, hcp, tier2Response, jget, lookupField,
            truthyOpt, truthy, isArr, isNum]

/-- On the success path `runVision` answers 200 with the validated truthy
`disease` and array `symptoms` preserved through the merge, after exactly the
vision and treatment calls. -/
theorem runVision_ok_shape (env : Env) (language : Json) (r : HttpResponse)
    (cs : List Call) (h : runVision env language = (Except.ok r, cs)) :
    r.status = 200 ∧
    truthyOpt (jget r.body "disease") = true ∧
    isArr (jget r.body "symptoms") = true ∧
    cs = [Call.vision, Call.treatment] := by
  rcases env with ⟨vf, tf, ff, parse, now, det⟩
  cases vf with
  | throws => simp [runVision] at h
  | success ok body =>
    cases ok with
    | false => simp [runVision] at h
    | true =>
      cases body with
      | error e => simp [runVision] at h
      | ok data =>
        cases hcp : contentPath data with
        | error e => simp [runVision, hcp] at h
        | ok analysisContent =>
          by_cases hc : truthyOpt analysisContent = false
          · simp [runVision, hcp, hc] at h
          · cases hp : parseStage parse (analysisContent.getD .null) with
            | error e => simp [runVision, hcp, hc, hp] at h
            | ok analysis =>
              by_cases hval : (truthyOpt (jget analysis "disease")
                  && isArr (jget analysis "symptoms")) = false
              · simp [runVision, hcp, hc, hp, hval] at h
              · have hval2 : (truthyOpt (jget analysis "disease")
                    && isArr (jget analysis "symptoms")) = true := by
                  cases hb : (truthyOpt (jget analysis "disease")
                      && isArr (jget analysis "symptoms")) with
                  | false => exact absurd hb hval
                  | true => rfl
                have hval' := Bool.and_eq_true _ _ |>.mp hval2
                obtain ⟨fs, rfl⟩ := truthy_jget_obj analysis "disease" hval'.1
                cases tf with
                | throws => simp [runVision, hcp, hc, hp, hval] at h
                | success tok tbody =>
                  cases tbody with
                  | error e => simp [runVision, hcp, hc, hp, hval] at h
                  | ok tdata =>
                    cases htcp : contentPath tdata with
                    | error e => simp [runVision, hcp, hc, hp, hval, htcp] at h
                    | ok treatmentContent =>
                      simp [runVision, hcp, hc, hp, hval, htcp] at h
                      obtain ⟨hr, hcs⟩ := h
                      subst hcs
                      have hst : r.status = 200 := by rw [← hr]
                      have hbd : r.body = mergeAnalysis (Json.obj fs)
                          (if truthyOpt treatmentContent = true then
                            treatmentContent.getD Json.null
                          else Json.str "") now language := by rw [← hr]
                      refine ⟨hst, ?_, ?_, rfl⟩
                      · rw [hbd, jget_mergeAnalysis_ne fs _ now language "disease"
                          (by decide) (by decide) (by decide)]
                        exact hval'.1
                      · rw [hbd, jget_mergeAnalysis_ne fs _ now language "symptoms"
                          (by decide) (by decide) (by decide)]
                        exact hval'.2

/-! ### Stage-failure lemmas for the vision flow -/

/-- If the vision reply content is a non-empty string on which both parse
attempts fail, the inner try block transfers to the fallback tier. -/
theorem runVision_error_parse (env : Env) (language : Json) (data : Json)
    (s : String) (hv : env.visionFetch = FetchOutcome.success true (.ok data))
    (hc : contentPath data = .ok (some (.str s))) (hs : ¬ s = "")
    (hp : parseStage env.parse (.str s) = .error ()) :
    runVision env language = (.error (), [Call.vision]) := by
  have hct : truthyOpt (some (Json.str s)) = true := by
    simp [truthyOpt, truthy, hs]
  unfold runVision
  rw [hv]
  simp [hc, hct, hp]

/-- If the vision reply parses to `analysis` but structural validation fails
(`!analysis.disease || !Array.isArray(analysis.symptoms)`), the inner try
block transfers to the fallback tier. -/
theorem runVision_error_validation (env : Env) (language : Json) (data : Json)
    (s : String) (analysis : Json)
    (hv : env.visionFetch = FetchOutcome.success true (.ok data))
    (hc : contentPath data = .ok (some (.str s))) (hs : ¬ s = "")
    (hp : parseStage env.parse (.str s) = .ok analysis)
    (hbad : (truthyOpt (jget analysis "disease")
      && isArr (jget analysis "symptoms")) = false) :
    runVision env language = (.error (), [Call.vision]) := by
  have hct : truthyOpt (some (Json.str s)) = true := by
    simp [truthyOpt, truthy, hs]
  unfold runVision
  rw [hv]
  simp [hc, hct, hp, hbad]

/-- Once the input and credential guards pass, the handler is the vision flow
followed, on error, by the fallback sub-flow. -/
theorem POST_guard_pass (b : Json) (im k : String) (env : Env)
    (himg : jget b "imageBase64" = some (Json.str im)) (him : ¬ im = "")
    (hk : ¬ k = "") :
    POST (.ok b) (some k) env =
      (match runVision env ((jget b "language").getD (Json.str "en")) with
       | (.ok r, calls) => (r, calls)
       | (.error _, calls) =>
         ((getFallbackAnalysis env ((jget b "language").getD (Json.str "en"))).1,
          calls ++
            (getFallbackAnalysis env ((jget b "language").getD (Json.str "en"))).2)) := by
  obtain ⟨fs, rfl⟩ := truthy_jget_obj b "imageBase64"
    (by rw [himg]; simp [truthyOpt, truthy, him])
  simp [POST, himg, truthyOpt, truthy, him, truthyKey, hk]

/-- Claim C1: for every POST body carrying a non-empty `imageBase64` string,
with the credential configured, the handler answers 200 — in degraded cases
as well — with a body shaped like a DiseaseAnalysis (truthy `disease`, array
`symptoms`), and never an error-shaped non-2xx response: every throw site of
the route is caught and converted into one of the three 200 payloads. -/
theorem C1_post_always_200 (b : Json) (im k : String) (env : Env)
    (himg : jget b "imageBase64" = some (Json.str im)) (him : ¬ im = "")
    (hk : ¬ k = "") :
    (POST (.ok b) (some k) env).1.status = 200 ∧
    truthyOpt (jget (POST (.ok b) (some k) env).1.body "disease") = true ∧
    isArr (jget (POST (.ok b) (some k) env).1.body "symptoms") = true := by
  rw [POST_guard_pass b im k env himg him hk]
  rcases hrv : runVision env ((jget b "language").getD (Json.str "en"))
    with ⟨res, calls⟩
  cases res with
  | ok r =>
    have h1 := runVision_ok_shape env _ r calls hrv
    exact ⟨h1.1, h1.2.1, h1.2.2.1⟩
  | error e =>
    have h2 := getFallbackAnalysis_shape env
      ((jget b "language").getD (Json.str "en"))
    exact ⟨h2.1, h2.2.1, h2.2.2.1⟩

/-- Witness for C1 at a concrete request and environment. -/
theorem C1_post_always_200_witness :
    (POST (.ok (Json.obj [("imageBase64", Json.str "IMG")])) (some "KEY")
        { visionFetch := .throws, treatmentFetch := .throws,
          fallbackFetch := .throws, parse := fun _ => none, now := "T",
          errDetails := "D" }).1.status = 200 ∧
    truthyOpt (jget (POST (.ok (Json.obj [("imageBase64", Json.str "IMG")]))
        (some "KEY")
        { visionFetch := .throws, treatmentFetch := .throws,
          fallbackFetch := .throws, parse := fun _ => none, now := "T",
          errDetails := "D" }).1.body "disease") = true ∧
    isArr (jget (POST (.ok (Json.obj [("imageBase64", Json.str "IMG")]))
        (some "KEY")
        { visionFetch := .throws, treatmentFetch := .throws,
          fallbackFetch := .throws, parse := fun _ => none, now := "T",
          errDetails := "D" }).1.body "symptoms") = true :=
  C1_post_always_200 (Json.obj [("imageBase64", Json.str "IMG")]) "IMG" "KEY"
    _ rfl (by decide) (by decide)

/-- When the vision flow errors, the handler answers with the fallback
sub-flow: `fallbackMode: true` and a fallback call issued. -/
theorem POST_fallback_shape (b : Json) (im k : String) (env : Env)
    (cs : List Call)
    (himg : jget b "imageBase64" = some (Json.str im)) (him : ¬ im = "")
    (hk : ¬ k = "")
    (hrv : runVision env ((jget b "language").getD (Json.str "en")) =
      (.error (), cs)) :
    jget (POST (.ok b) (some k) env).1.body "fallbackMode" =
      some (.bool true) ∧
    Call.fallback ∈ (POST (.ok b) (some k) env).2 := by
  have h2 := getFallbackAnalysis_shape env ((jget b "language").getD (Json.str "en"))
  rw [POST_guard_pass b im k env himg him hk, hrv]
  constructor
  · exact h2.2.2.2.1
  · show Call.fallback ∈ cs ++
      (getFallbackAnalysis env ((jget b "language").getD (Json.str "en"))).2
    rw [h2.2.2.2.2.2]
    simp

/-- Claim C2: a vision reply whose content text neither parses directly as
JSON nor yields a parseable brace-delimited span sends the flow to the
fallback tier, and the returned object has `fallbackMode: true`. -/
theorem C2_unparseable_reply_falls_back (b : Json) (im k : String) (env : Env)
    (data : Json) (s : String)
    (himg : jget b "imageBase64" = some (Json.str im)) (him : ¬ im = "")
    (hk : ¬ k = "")
    (hv : env.visionFetch = FetchOutcome.success true (.ok data))
    (hc : contentPath data = .ok (some (.str s))) (hs : ¬ s = "")
    (hparse : env.parse s = none)
    (hspan : ∀ sub, extractSpan s = some sub → env.parse sub = none) :
    jget (POST (.ok b) (some k) env).1.body "fallbackMode" =
      some (.bool true) ∧
    Call.fallback ∈ (POST (.ok b) (some k) env).2 := by
  have hp : parseStage env.parse (.str s) = .error () := by
    simp only [parseStage]
    rw [hparse]
    cases hsp : extractSpan s with
    | none => rfl
    | some sub =>
      show (match env.parse sub with
        | some j => Except.ok j
        | none => Except.error ()) = Except.error ()
      rw [hspan sub hsp]
  exact POST_fallback_shape b im k env _ himg him hk
    (runVision_error_parse env _ data s hv hc hs hp)

/-- Witness for C2: a reply content of plain prose with no brace span. -/
theorem C2_unparseable_reply_falls_back_witness :
    jget (POST (.ok (Json.obj [("imageBase64", Json.str "IMG")])) (some "KEY")
        { visionFetch := .success true (.ok (Json.obj [("choices", Json.arr
            [Json.obj [("message", Json.obj [("content", Json.str "not json")])]])])),
          treatmentFetch := .throws, fallbackFetch := .success true (.ok (Json.obj [])),
          parse := fun _ => none, now := "T", errDetails := "D" }).1.body
      "fallbackMode" = some (.bool true) ∧
    Call.fallback ∈ (POST (.ok (Json.obj [("imageBase64", Json.str "IMG")]))
        (some "KEY")
        { visionFetch := .success true (.ok (Json.obj [("choices", Json.arr
            [Json.obj [("message", Json.obj [("content", Json.str "not json")])]])])),
          treatmentFetch := .throws, fallbackFetch := .success true (.ok (Json.obj [])),
          parse := fun _ => none, now := "T", errDetails := "D" }).2 :=
  C2_unparseable_reply_falls_back (Json.obj [("imageBase64", Json.str "IMG")])
    "IMG" "KEY" _ _ "not json" rfl (by decide) (by decide) rfl rfl (by decide)
    rfl
    (fun sub h => by
      rw [show extractSpan "not json" = none from by decide] at h)

/-- Claim C3: a vision reply that parses as JSON but has no truthy `disease`
field or a non-array `symptoms` field is rejected by structural validation
and the flow falls back with `fallbackMode: true`. -/
theorem C3_invalid_structure_falls_back (b : Json) (im k : String) (env : Env)
    (data : Json) (s : String) (j : Json)
    (himg : jget b "imageBase64" = some (Json.str im)) (him : ¬ im = "")
    (hk : ¬ k = "")
    (hv : env.visionFetch = FetchOutcome.success true (.ok data))
    (hc : contentPath data = .ok (some (.str s))) (hs : ¬ s = "")
    (hparse : env.parse s = some j)
    (hbad : jget j "disease" = none ∨ isArr (jget j "symptoms") = false) :
    jget (POST (.ok b) (some k) env).1.body "fallbackMode" =
      some (.bool true) ∧
    Call.fallback ∈ (POST (.ok b) (some k) env).2 := by
  have hp : parseStage env.parse (.str s) = .ok j := by
    simp only [parseStage]
    rw [hparse]
  have hbad2 : (truthyOpt (jget j "disease")
      && isArr (jget j "symptoms")) = false := by
    rcases hbad with h | h
    · rw [h]; rfl
    · rw [h]; simp
  exact POST_fallback_shape b im k env _ himg him hk
    (runVision_error_validation env _ data s j hv hc hs hp hbad2)

/-- Witness for C3: valid JSON whose `symptoms` is a scalar string. -/
theorem C3_invalid_structure_falls_back_witness :
    jget (POST (.ok (Json.obj [("imageBase64", Json.str "IMG")])) (some "KEY")
        { visionFetch := .success true (.ok (Json.obj [("choices", Json.arr
            [Json.obj [("message", Json.obj [("content", Json.str "PAYLOAD")])]])])),
          treatmentFetch := .throws, fallbackFetch := .throws,
          parse := fun s => if s = "PAYLOAD" then
              some (Json.obj [("disease", Json.str "Blight"),
                ("symptoms", Json.str "scalar")])
            else none,
          now := "T", errDetails := "D" }).1.body
      "fallbackMode" = some (.bool true) ∧
    Call.fallback ∈ (POST (.ok (Json.obj [("imageBase64", Json.str "IMG")]))
        (some "KEY")
        { visionFetch := .success true (.ok (Json.obj [("choices", Json.arr
            [Json.obj [("message", Json.obj [("content", Json.str "PAYLOAD")])]])])),
          treatmentFetch := .throws, fallbackFetch := .throws,
          parse := fun s => if s = "PAYLOAD" then
              some (Json.obj [("disease", Json.str "Blight"),
                ("symptoms", Json.str "scalar")])
            else none,
          now := "T", errDetails := "D" }).2 :=
  C3_invalid_structure_falls_back (Json.obj [("imageBase64", Json.str "IMG")])
    "IMG" "KEY" _ _ "PAYLOAD"
    (Json.obj [("disease", Json.str "Blight"), ("symptoms", Json.str "scalar")])
    rfl (by decide) (by decide) rfl rfl (by decide) rfl
    (Or.inr rfl)

/-! ### Concrete request bodies, replies and environments used as witnesses -/

/-- A request body with a non-empty base64 image. -/
def exBody : Json := Json.obj [("imageBase64", Json.str "IMG")]

/-- A vision-reply data object whose message content is the placeholder text
`PAYLOAD`, to be interpreted by the parse oracle of each environment. -/
def exVisionData : Json :=
  Json.obj [("choices", Json.arr
    [Json.obj [("message", Json.obj [("content", Json.str "PAYLOAD")])]])]

/-- A treatment-reply data object carrying a narrative string content. -/
def exTreatData : Json :=
  Json.obj [("choices", Json.arr
    [Json.obj [("message", Json.obj [("content", Json.str "NARRATIVE")])]])]

/-- A fully valid primary analysis, as in the spec example. -/
def exAnalysis : Json :=
  Json.obj [("disease", Json.str "Leaf Blight"), ("confidence", Json.num 0.9),
    ("symptoms", Json.arr [Json.str "yellow spots"]),
    ("treatment", Json.arr [Json.str "fungicide"]),
    ("prevention", Json.arr [Json.str "rotate crops"])]

/-- An environment where every upstream fetch rejects. -/
def quietEnv : Env :=
  { visionFetch := .throws, treatmentFetch := .throws, fallbackFetch := .throws,
    parse := fun _ => none, now := "T", errDetails := "E" }

/-- Environment for the C4 counterexample: the primary vision call fully
succeeds (its content parses to `exAnalysis`), but the secondary narrative
fetch rejects, and so does the fallback fetch. -/
def C4env : Env :=
  { visionFetch := .success true (.ok exVisionData),
    treatmentFetch := .throws, fallbackFetch := .throws,
    parse := fun s => if s = "PAYLOAD" then some exAnalysis else none,
    now := "T", errDetails := "D" }

/-- Claim C4 counterexample: the primary vision call succeeds (steps 2–4 pass
on a fully valid reply) but the secondary narrative fetch rejects; contrary
to the claim, the handler does not keep the primary fields — the thrown fetch
is caught by the `groqError` handler, the flow falls back, and the returned
object is the hardcoded fallback payload, not the primary analysis. -/
theorem C4_secondary_throw_counterexample :
    jget (POST (.ok exBody) (some "KEY") C4env).1.body "disease" =
      some (.str "Service Temporarily Unavailable") ∧
    jget (POST (.ok exBody) (some "KEY") C4env).1.body "fallbackMode" =
      some (.bool true) ∧
    Call.fallback ∈ (POST (.ok exBody) (some "KEY") C4env).2 :=
  ⟨rfl, rfl, by decide⟩

/-- Claim C4 (amended): if the primary vision call succeeds (steps 2–4 pass)
and the secondary narrative call delivers a parsed JSON body — of any HTTP
status — on which the content lookup `treatmentData.choices?.[0]?.message?.content`
evaluates without throwing (the body is not the JSON literal null, whose
non-optional `.choices` access throws) and yields absent or falsy content,
then the returned object still carries the primary `disease`, `symptoms` and
`treatment` fields, with `aiGeneratedTreatment` the empty string, status 200,
and no fallback.  (If instead the secondary fetch rejects, its body fails to
parse, or the body is JSON null, the flow falls to the fallback tier — see
the counterexample.) -/
theorem C4_secondary_contentless_merges (b : Json) (im k : String) (env : Env)
    (data : Json) (s : String) (j : Json) (tok : Bool) (tdata : Json)
    (tc : Option Json)
    (himg : jget b "imageBase64" = some (Json.str im)) (him : ¬ im = "")
    (hk : ¬ k = "")
    (hv : env.visionFetch = FetchOutcome.success true (.ok data))
    (hc : contentPath data = .ok (some (.str s))) (hs : ¬ s = "")
    (hparse : env.parse s = some j)
    (hval : (truthyOpt (jget j "disease")
      && isArr (jget j "symptoms")) = true)
    (ht : env.treatmentFetch = FetchOutcome.success tok (.ok tdata))
    (htc : contentPath tdata = .ok tc)
    (htf : truthyOpt tc = false) :
    (POST (.ok b) (some k) env).1.status = 200 ∧
    jget (POST (.ok b) (some k) env).1.body "disease" = jget j "disease" ∧
    jget (POST (.ok b) (some k) env).1.body "symptoms" = jget j "symptoms" ∧
    jget (POST (.ok b) (some k) env).1.body "treatment" = jget j "treatment" ∧
    jget (POST (.ok b) (some k) env).1.body "aiGeneratedTreatment" =
      some (.str "") ∧
    Call.fallback ∉ (POST (.ok b) (some k) env).2 := by
  have hct : truthyOpt (some (Json.str s)) = true := by
    simp [truthyOpt, truthy, hs]
  have hp : parseStage env.parse (.str s) = .ok j := by
    simp only [parseStage]; rw [hparse]
  have hrv : runVision env ((jget b "language").getD (Json.str "en")) =
      (Except.ok (HttpResponse.mk 200 (mergeAnalysis j (Json.str "")
        env.now ((jget b "language").getD (Json.str "en")))),
       [Call.vision, Call.treatment]) := by
    unfold runVision
    rw [hv, ht]
    simp [hc, hct, hp, hval, htc, htf]
  obtain ⟨fs, rfl⟩ := truthy_jget_obj j "disease"
    ((Bool.and_eq_true _ _ |>.mp hval).1)
  have hP : POST (.ok b) (some k) env =
      (HttpResponse.mk 200 (mergeAnalysis (Json.obj fs) (Json.str "")
        env.now ((jget b "language").getD (Json.str "en"))),
       [Call.vision, Call.treatment]) := by
    rw [POST_guard_pass b im k env himg him hk, hrv]
  rw [hP]
  dsimp only
  refine ⟨rfl, ?_, ?_, ?_, ?_, by decide⟩
  · rw [jget_mergeAnalysis_ne fs _ env.now _ "disease"
      (by decide) (by decide) (by decide)]
    rfl
  · rw [jget_mergeAnalysis_ne fs _ env.now _ "symptoms"
      (by decide) (by decide) (by decide)]
    rfl
  · rw [jget_mergeAnalysis_ne fs _ env.now _ "treatment"
      (by decide) (by decide) (by decide)]
    rfl
  · rw [jget_mergeAnalysis_ai fs _ env.now _]

/-- Environment for the C4 amended witness: the secondary call resolves with
a non-2xx status and a JSON body carrying no message content. -/
def C4okEnv : Env :=
  { visionFetch := .success true (.ok exVisionData),
    treatmentFetch := .success false (.ok (Json.obj [])),
    fallbackFetch := .throws,
    parse := fun s => if s = "PAYLOAD" then some exAnalysis else none,
    now := "T", errDetails := "D" }

/-- Witness for the amended C4. -/
theorem C4_secondary_contentless_merges_witness :
    (POST (.ok exBody) (some "KEY") C4okEnv).1.status = 200 ∧
    jget (POST (.ok exBody) (some "KEY") C4okEnv).1.body "disease" =
      jget exAnalysis "disease" ∧
    jget (POST (.ok exBody) (some "KEY") C4okEnv).1.body "symptoms" =
      jget exAnalysis "symptoms" ∧
    jget (POST (.ok exBody) (some "KEY") C4okEnv).1.body "treatment" =
      jget exAnalysis "treatment" ∧
    jget (POST (.ok exBody) (some "KEY") C4okEnv).1.body
      "aiGeneratedTreatment" = some (.str "") ∧
    Call.fallback ∉ (POST (.ok exBody) (some "KEY") C4okEnv).2 :=
  C4_secondary_contentless_merges exBody "IMG" "KEY" C4okEnv exVisionData
    "PAYLOAD" exAnalysis false (Json.obj []) none rfl (by decide) (by decide)
    rfl rfl (by decide) rfl rfl rfl rfl rfl

/-- Claim C5: when the vision tier has failed (control transferred to the
fallback sub-flow) and the fallback fetch itself fails — it rejects or its
body fails to parse — the endpoint returns the final hardcoded
service-unavailable DiseaseAnalysis: status 200, confidence 0,
`fallbackMode: true`, and no `language` field; and no remote call is made
beyond the single fallback call. -/
theorem C5_double_failure_hardcoded (b : Json) (im k : String) (env : Env)
    (cs : List Call)
    (himg : jget b "imageBase64" = some (Json.str im)) (him : ¬ im = "")
    (hk : ¬ k = "")
    (hrv : runVision env ((jget b "language").getD (Json.str "en")) =
      (.error (), cs))
    (hfb : env.fallbackFetch = FetchOutcome.throws ∨
      ∃ fok, env.fallbackFetch = FetchOutcome.success fok (.error ())) :
    (POST (.ok b) (some k) env).1.status = 200 ∧
    jget (POST (.ok b) (some k) env).1.body "disease" =
      some (.str "Service Temporarily Unavailable") ∧
    jget (POST (.ok b) (some k) env).1.body "confidence" =
      some (.num 0) ∧
    jget (POST (.ok b) (some k) env).1.body "fallbackMode" =
      some (.bool true) ∧
    jget (POST (.ok b) (some k) env).1.body "language" = none ∧
    (POST (.ok b) (some k) env).2 = cs ++ [Call.fallback] := by
  have hfa : getFallbackAnalysis env ((jget b "language").getD (Json.str "en")) =
      (tier3Response env.now, [Call.fallback]) := by
    rcases hfb with h | ⟨fok, h⟩ <;> (unfold getFallbackAnalysis; rw [h])
  have hP : POST (.ok b) (some k) env =
      (tier3Response env.now, cs ++ [Call.fallback]) := by
    rw [POST_guard_pass b im k env himg him hk, hrv]
    show ((getFallbackAnalysis env ((jget b "language").getD (Json.str "en"))).1,
      cs ++ (getFallbackAnalysis env ((jget b "language").getD (Json.str "en"))).2) = _
    rw [hfa]
  rw [hP]
  exact ⟨rfl, rfl, rfl, rfl, rfl, rfl⟩

/-- Witness for C5: the vision fetch and the fallback fetch both reject. -/
theorem C5_double_failure_hardcoded_witness :
    (POST (.ok exBody) (some "KEY") quietEnv).1.status = 200 ∧
    jget (POST (.ok exBody) (some "KEY") quietEnv).1.body "disease" =
      some (.str "Service Temporarily Unavailable") ∧
    jget (POST (.ok exBody) (some "KEY") quietEnv).1.body "confidence" =
      some (.num 0) ∧
    jget (POST (.ok exBody) (some "KEY") quietEnv).1.body "fallbackMode" =
      some (.bool true) ∧
    jget (POST (.ok exBody) (some "KEY") quietEnv).1.body "language" = none ∧
    (POST (.ok exBody) (some "KEY") quietEnv).2 =
      [Call.vision] ++ [Call.fallback] :=
  C5_double_failure_hardcoded exBody "IMG" "KEY" quietEnv [Call.vision]
    rfl (by decide) (by decide) rfl (Or.inl rfl)

/-- Claim C6 counterexample: a request whose body is the JSON value `null`
lacks an image payload, yet the endpoint does not answer 400 with
"No image provided" — destructuring `null` throws before the guard runs, so
the outer catch answers the generic 500.  (No upstream call either way.) -/
theorem C6_null_body_counterexample :
    (POST (.ok Json.null) (some "KEY") quietEnv).1.status = 500 ∧
    jget (POST (.ok Json.null) (some "KEY") quietEnv).1.body "error" =
      some (.str "Analysis service temporarily unavailable") ∧
    (POST (.ok Json.null) (some "KEY") quietEnv).2 = [] :=
  ⟨rfl, rfl, rfl⟩

/-- Claim C6 (amended): for every request whose body parses to a JSON value
other than `null` and whose `imageBase64` is absent, empty, or otherwise
falsy, the endpoint answers 400 with error "No image provided" and makes no
upstream call.  (A body equal to JSON `null` also lacks an image but instead
yields the generic 500 via the outer catch — see the counterexample.) -/
theorem C6_no_image_400 (b : Json) (key : Option String) (env : Env)
    (hb : ¬ b = Json.null)
    (himg : truthyOpt (jget b "imageBase64") = false) :
    (POST (.ok b) key env).1.status = 400 ∧
    jget (POST (.ok b) key env).1.body "error" =
      some (.str "No image provided") ∧
    (POST (.ok b) key env).2 = [] := by
  have h400 : POST (.ok b) key env =
      (HttpResponse.mk 400 (Json.obj [("error", Json.str "No image provided")]),
       []) := by
    cases b with
    | null => exact absurd rfl hb
    | bool v => simp [POST, jget, truthyOpt]
    | num n => simp [POST, jget, truthyOpt]
    | str s => simp [POST, jget, truthyOpt]
    | arr es => simp [POST, jget, truthyOpt]
    | obj fs => simp [POST, himg]
  rw [h400]
  exact ⟨rfl, rfl, rfl⟩

/-- Witness for the amended C6 at the spec example `imageBase64 = ""`. -/
theorem C6_no_image_400_witness :
    (POST (.ok (Json.obj [("imageBase64", Json.str ""),
        ("language", Json.str "en")])) (some "KEY") quietEnv).1.status = 400 ∧
    jget (POST (.ok (Json.obj [("imageBase64", Json.str ""),
        ("language", Json.str "en")])) (some "KEY") quietEnv).1.body "error" =
      some (.str "No image provided") ∧
    (POST (.ok (Json.obj [("imageBase64", Json.str ""),
        ("language", Json.str "en")])) (some "KEY") quietEnv).2 = [] :=
  C6_no_image_400 (Json.obj [("imageBase64", Json.str ""),
      ("language", Json.str "en")]) (some "KEY") quietEnv
    (fun h => Json.noConfusion h) rfl

/-- Claim C7: a request with a non-empty image but no credential configured
answers the 500 configuration error and makes no upstream call. -/
theorem C7_missing_key_500 (b : Json) (im : String) (env : Env)
    (himg : jget b "imageBase64" = some (Json.str im)) (him : ¬ im = "") :
    (POST (.ok b) none env).1.status = 500 ∧
    jget (POST (.ok b) none env).1.body "error" =
      some (.str "Groq API key not configured") ∧
    (POST (.ok b) none env).2 = [] := by
  obtain ⟨fs, rfl⟩ := truthy_jget_obj b "imageBase64"
    (by rw [himg]; simp [truthyOpt, truthy, him])
  have himgT : truthyOpt (jget (Json.obj fs) "imageBase64") = true := by
    rw [himg]; simp [truthyOpt, truthy, him]
  have h500 : POST (.ok (Json.obj fs)) none env =
      (HttpResponse.mk 500
        (Json.obj [("error", Json.str "Groq API key not configured")]), []) := by
    simp [POST, himgT, truthyKey]
  rw [h500]
  exact ⟨rfl, rfl, rfl⟩

/-- Witness for C7. -/
theorem C7_missing_key_500_witness :
    (POST (.ok exBody) none quietEnv).1.status = 500 ∧
    jget (POST (.ok exBody) none quietEnv).1.body "error" =
      some (.str "Groq API key not configured") ∧
    (POST (.ok exBody) none quietEnv).2 = [] :=
  C7_missing_key_500 exBody "IMG" quietEnv rfl (by decide)

/-- A structurally valid vision analysis whose `confidence` is the string
"high": the route validates only `disease` and `symptoms`, never the type of
`confidence`. -/
def C8analysis : Json :=
  Json.obj [("disease", Json.str "Blight"), ("confidence", Json.str "high"),
    ("symptoms", Json.arr [])]

/-- Environment for the C8 counterexample: the whole success path runs, with
the primary reply carrying a non-numeric `confidence`. -/
def C8env : Env :=
  { visionFetch := .success true (.ok exVisionData),
    treatmentFetch := .success true (.ok exTreatData),
    fallbackFetch := .throws,
    parse := fun s => if s = "PAYLOAD" then some C8analysis else none,
    now := "T", errDetails := "D" }

/-- Claim C8 counterexample: the endpoint returns a 200 DiseaseAnalysis (with
truthy `disease` and array `symptoms`) whose `confidence` field is the
non-numeric string "high" — the success path copies `confidence` from the
model reply without any numeric check. -/
theorem C8_nonnumeric_confidence_counterexample :
    (POST (.ok exBody) (some "KEY") C8env).1.status = 200 ∧
    truthyOpt (jget (POST (.ok exBody) (some "KEY") C8env).1.body
      "disease") = true ∧
    isArr (jget (POST (.ok exBody) (some "KEY") C8env).1.body
      "symptoms") = true ∧
    jget (POST (.ok exBody) (some "KEY") C8env).1.body "confidence" =
      some (.str "high") ∧
    isNum (jget (POST (.ok exBody) (some "KEY") C8env).1.body
      "confidence") = false :=
  ⟨rfl, rfl, rfl, rfl, rfl⟩

/-- Claim C8 (amended): both fallback tiers always return a numeric
`confidence` (0.6 and 0 respectively); on the success path `confidence` is
copied unvalidated from the model reply and need not be numeric — see the
counterexample. -/
theorem C8_fallback_confidence_numeric (env : Env) (language : Json) :
    isNum (jget (getFallbackAnalysis env language).1.body "confidence") =
      true ∧
    (getFallbackAnalysis env language).1.status = 200 :=
  ⟨(getFallbackAnalysis_shape env language).2.2.2.2.1,
   (getFallbackAnalysis_shape env language).1⟩

/-- Claim C9: a non-blank submission while idle appends exactly one user
turn followed by exactly one assistant turn, in that order; when the fetch
rejects or answers non-2xx, the assistant turn is the fixed generic apology;
the flow absorbs every failure (the embedding is total — each throw site is
caught by the surrounding catch). -/
theorem C9_submit_appends_two_turns (st : ChatState) (messageText : String)
    (f : ChatFetch) (now : Nat)
    (h1 : ¬ jsTrim messageText = "") (h2 : st.isLoading = false) :
    ∃ a : Message,
      (submitMessage st messageText f now).1.messages =
        st.messages ++
          [{ id := toString now, role := .user,
             content := .str messageText, timestamp := now }, a] ∧
      a.role = .assistant ∧
      (chatFailed f = true →
        a.content = .str "Sorry, there was an error. Please try again.") := by
  unfold submitMessage
  rw [if_neg (by simp [h1, h2])]
  refine ⟨_, rfl, ?_, ?_⟩
  · cases f with
    | throws => rfl
    | success ok body =>
      cases ok with
      | false => rfl
      | true =>
        cases body with
        | error e => rfl
        | ok data => cases data <;> rfl
  · intro hf
    cases f with
    | throws => rfl
    | success ok body =>
      cases ok with
      | false => rfl
      | true => simp [chatFailed] at hf

/-- Witness for C9: a failing transport yields the apology turn. -/
theorem C9_submit_appends_two_turns_witness :
    ∃ a : Message,
      (submitMessage { messages := [], input := "hello", isLoading := false }
        "hello" ChatFetch.throws 5).1.messages =
        [] ++ [{ id := toString 5, role := .user,
                 content := .str "hello", timestamp := 5 }, a] ∧
      a.role = .assistant ∧
      (chatFailed ChatFetch.throws = true →
        a.content = .str "Sorry, there was an error. Please try again.") :=
  C9_submit_appends_two_turns
    { messages := [], input := "hello", isLoading := false } "hello"
    ChatFetch.throws 5 (by decide) rfl

/-- Claim C10: a blank submission, or one made while a request is in flight,
is a no-op — the whole session state (transcript and input included) is
unchanged and no network request is issued. -/
theorem C10_blank_or_busy_noop (st : ChatState) (messageText : String)
    (f : ChatFetch) (now : Nat)
    (h : jsTrim messageText = "" ∨ st.isLoading = true) :
    submitMessage st messageText f now = (st, false) := by
  unfold submitMessage
  rw [if_pos h]

/-- Witness for C10 at a whitespace-only input. -/
theorem C10_blank_or_busy_noop_witness :
    submitMessage { messages := [], input := "  ", isLoading := false }
      "  " ChatFetch.throws 5 =
    ({ messages := [], input := "  ", isLoading := false }, false) :=
  C10_blank_or_busy_noop
    { messages := [], input := "  ", isLoading := false } "  "
    ChatFetch.throws 5 (Or.inl (by decide))

end FarmerHelpdesk
